import Mathlib

/-!
Shallow embedding of the inter-agent messaging core of the repository
(`src/app/chat.py`, class `DaprChatManager`), together with proofs of the
specification's testable properties.

Modelling conventions:
* Python exceptions escaping a function are modelled by an `Except PyError`
  result; an exception that a `try/except` clause catches and merely logs is
  returned as a `some e` component of a normal (`.ok`) result.
* JSON payloads are modelled at the object level: the wire form of a message
  (`json.dumps` of the five-field dict) is an association list of string
  fields, and the persisted history blob is a list of such objects.  The
  `json.dumps`/`json.loads` pair on these shapes is the identity and is not
  re-modelled at the character level.
* Python `datetime` is modelled only through the interface the code uses:
  `isoformat` renders a canonical ISO-8601 string and `fromisoformat` parses
  one back (raising `ValueError` on an unparsable string).  A `Datetime` is
  its canonical ISO rendering, constrained to the ISO character set, so that
  parsing is a partial inverse of rendering, as it is for real datetimes.
* The Dapr sidecar is the environment: boolean parameters say whether the
  client is already connected, whether connecting succeeds, and whether a
  transport call succeeds; a `fetch` parameter gives the outcome of
  `get_state` for the history key.
-/

/-- Exceptions that the code in `chat.py` can raise or catch.  `keyError`
models a missing dict field (`message_data['...']`), `valueError` an
unparsable timestamp (`datetime.fromisoformat`), `handlerExc` an exception
raised by a registered handler callback, and `daprError` a failure of the
Dapr client (connect, `publish_event`, `get_state`, `save_state`). -/
inductive PyError where
  | keyError (key : String)
  | valueError (msg : String)
  | handlerExc (msg : String)
  | daprError (op : String)
deriving DecidableEq, Repr

/-- Characters admitted in the modelled canonical ISO-8601 rendering of a
datetime (digits, date/time separators, fractional seconds). -/
def isIsoChar (c : Char) : Bool :=
  c.isDigit || c = '-' || c = ':' || c = 'T' || c = '.'

/-- A string is a parsable ISO-8601 timestamp in this model iff it is
non-empty and uses only the ISO character set. -/
def isValidIso (s : String) : Bool :=
  !s.data.isEmpty && s.data.all isIsoChar

/-- Model of Python `datetime` restricted to what `chat.py` uses: a datetime
is identified with its canonical ISO-8601 rendering. -/
def Datetime := { s : String // isValidIso s = true }

instance : DecidableEq Datetime :=
  inferInstanceAs (DecidableEq { s : String // isValidIso s = true })

/-- `datetime.isoformat`: render the canonical ISO-8601 string. -/
def Datetime.isoformat (d : Datetime) : String := d.val

/-- `datetime.fromisoformat`: parse an ISO-8601 string, raising `ValueError`
on an unparsable one. -/
def fromisoformat (s : String) : Except PyError Datetime :=
  if h : isValidIso s = true then .ok ⟨s, h⟩ else .error (.valueError s)

/-- `ChatMessage` (chat.py lines 16-23): the atomic unit of inter-agent
communication, with its five required fields. -/
structure ChatMessage where
  agent_name : String
  role : String
  content : String
  timestamp : Datetime
  message_id : String
deriving DecidableEq

/-- A decoded JSON object whose values are strings, as produced by
`json.loads` on a published message payload: an association list from field
names to string values. -/
def Payload := List (String × String)

instance : DecidableEq Payload :=
  inferInstanceAs (DecidableEq (List (String × String)))

instance {ε α : Type} [DecidableEq ε] [DecidableEq α] :
    DecidableEq (Except ε α) := fun a b =>
  match a, b with
  | .ok x, .ok y =>
    if h : x = y then .isTrue (by rw [h]) else .isFalse (by simp [h])
  | .error x, .error y =>
    if h : x = y then .isTrue (by rw [h]) else .isFalse (by simp [h])
  | .ok _, .error _ => .isFalse (by simp)
  | .error _, .ok _ => .isFalse (by simp)

/-- Python dict item access `d[k]`: the first binding of `k`, or a
`KeyError` when `k` is absent. -/
def getItem : Payload → String → Except PyError String
  | [], k => .error (.keyError k)
  | (k', v) :: rest, k => if k' = k then .ok v else getItem rest k

/-- The `message_data` dict built by `publish_message` (chat.py lines
50-56): the canonical five-field wire form of a message, with the timestamp
rendered by `isoformat`. -/
def encodeMessage (m : ChatMessage) : Payload :=
  [("agent_name", m.agent_name),
   ("role", m.role),
   ("content", m.content),
   ("timestamp", m.timestamp.isoformat),
   ("message_id", m.message_id)]

/-- The `ChatMessage(...)` reconstruction in `handle_incoming_message`
(chat.py lines 81-87): reads the five fields in source order, raising
`KeyError` on a missing field and `ValueError` on an unparsable timestamp. -/
def decodeMessage (p : Payload) : Except PyError ChatMessage := do
  let an ← getItem p "agent_name"
  let role ← getItem p "role"
  let content ← getItem p "content"
  let ts ← getItem p "timestamp"
  let t ← fromisoformat ts
  let mid ← getItem p "message_id"
  pure ⟨an, role, content, t, mid⟩

/-- A registered handler callback: receives a message and either returns
normally or raises. -/
def Handler := ChatMessage → Except PyError Unit

/-- `subscribe_to_messages` (chat.py lines 71-74): sets
`message_handlers[agent_name] = handler_func`.  Python dict semantics: an
existing key keeps its position and its handler is replaced, a new key is
appended. -/
def subscribe_to_messages (hs : List (String × Handler)) (agent : String)
    (h : Handler) : List (String × Handler) :=
  if hs.any (fun p => p.1 == agent) then
    hs.map (fun p => if p.1 = agent then (agent, h) else p)
  else
    hs ++ [(agent, h)]

/-- The routing loop of `handle_incoming_message` (chat.py lines 90-92):
walk the handler table in registration order, invoke each handler whose
agent name differs from the sender's, and stop at the first handler that
raises.  Returns the trace of invocations `(agent_name, message)` together
with the exception the loop raised, if any. -/
def runHandlers : List (String × Handler) → ChatMessage →
    List (String × ChatMessage) × Option PyError
  | [], _ => ([], none)
  | (a, h) :: rest, m =>
    if a ≠ m.agent_name then
      match h m with
      | .ok _ =>
        let r := runHandlers rest m
        ((a, m) :: r.1, r.2)
      | .error e => ([(a, m)], some e)
    else
      runHandlers rest m

/-- `handle_incoming_message` (chat.py lines 76-95).  The whole body —
decoding and the routing loop — sits in one `try` whose `except Exception`
clause logs the exception and returns normally, so every branch is `.ok`.
The result carries the trace of handler invocations and the exception that
was caught and logged, if any; an `.error` result would model an exception
escaping to the caller, which never happens here. -/
def handle_incoming_message (hs : List (String × Handler)) (event : Payload) :
    Except PyError (List (String × ChatMessage) × Option PyError) :=
  match decodeMessage event with
  | .error e => .ok ([], some e)
  | .ok m => .ok (runHandlers hs m)

/-- The subscription entrypoint `message_handler` (chat.py lines 166-170):
constructs a fresh `DaprChatManager`, whose handler table is empty, and
forwards the event to `handle_incoming_message`. -/
def message_handler (event : Payload) :
    Except PyError (List (String × ChatMessage) × Option PyError) :=
  handle_incoming_message [] event

/-- `DaprChatManager.initialize` (chat.py lines 35-42): constructs the Dapr
client; on failure the `except` clause logs and re-raises, so the error
escapes to the caller. -/
def init_client (connectOk : Bool) : Except PyError Unit :=
  if connectOk then .ok () else .error (.daprError "DaprClient")

/-- `publish_message` (chat.py lines 44-69).  Connects lazily when no
client exists (a connect failure escapes, line 47); then builds the wire
payload and calls `publish_event` exactly once; on transport failure the
`except` clause logs and re-raises (line 69).  The first component is the
list of `publish_event` calls made (so its length bounds the attempts: no
retry), the second the outcome seen by the caller. -/
def publish_message (hasClient connectOk publishOk : Bool) (m : ChatMessage) :
    List Payload × Except PyError Unit :=
  if !hasClient && !connectOk then
    ([], .error (.daprError "DaprClient"))
  else if publishOk then
    ([encodeMessage m], .ok ())
  else
    ([encodeMessage m], .error (.daprError "publish_event"))

/-- The persisted value under store `chat-state-store` key `chat-history`:
either nothing (no prior save / empty `response.data`) or the stored JSON
array of message objects. -/
def StoreState := Option (List Payload)

instance : DecidableEq StoreState :=
  inferInstanceAs (DecidableEq (Option (List Payload)))

/-- Python slice `l[s:]` for an arbitrary integer start index: a negative
start counts from the end (clamped at the front), a non-negative start
drops that many elements. -/
def pySliceFrom {α : Type} (l : List α) (s : Int) : List α :=
  if s < 0 then l.drop ((l.length : Int) + s).toNat else l.drop s.toNat

/-- Decoding loop of `get_chat_history` (chat.py lines 113-121): decode the
sliced entries in order; the first malformed entry raises out of the loop. -/
def decodeAll : List Payload → Except PyError (List ChatMessage)
  | [] => .ok []
  | p :: ps => do
    let m ← decodeMessage p
    let ms ← decodeAll ps
    pure (m :: ms)

/-- `get_chat_history` (chat.py lines 97-128).  Connects lazily before the
`try` (lines 99-100), so a connect failure escapes.  Inside the `try`:
`get_state` (its outcome is the `fetch` parameter), then, when data exists,
decode `history_data[-limit:]` and return it; any exception in the `try` is
caught, logged, and the function returns `[]` (line 128).  The `.ok` result
carries the returned list and the logged exception, if any. -/
def get_chat_history (hasClient connectOk : Bool)
    (fetch : Except PyError StoreState) (limit : Int) :
    Except PyError (List ChatMessage × Option PyError) :=
  if !hasClient && !connectOk then
    .error (.daprError "DaprClient")
  else
    match fetch with
    | .error e => .ok ([], some e)
    | .ok none => .ok ([], none)
    | .ok (some arr) =>
      match decodeAll (pySliceFrom arr (-limit)) with
      | .error e => .ok ([], some e)
      | .ok msgs => .ok (msgs, none)

/-- `save_chat_history` (chat.py lines 130-155).  Connects lazily before
the `try` (lines 132-133), so a connect failure escapes.  Inside the `try`:
serialize the entire supplied sequence and `save_state` it under the fixed
key, replacing the previous value; a write failure (`writeOk = false`) is
caught by the `except` clause, logged, and NOT re-raised, leaving the store
unchanged.  The `.ok` result carries the store after the call and the
logged exception, if any. -/
def save_chat_history (hasClient connectOk : Bool) (store : StoreState)
    (writeOk : Bool) (msgs : List ChatMessage) :
    Except PyError (StoreState × Option PyError) :=
  if !hasClient && !connectOk then
    .error (.daprError "DaprClient")
  else if writeOk then
    .ok (some (msgs.map encodeMessage), none)
  else
    .ok (store, some (.daprError "save_state"))

/-! ### Concrete example values used by witnesses and counterexamples -/

/-- A concrete parsable ISO-8601 timestamp. -/
def exTime : Datetime := ⟨"2024-01-01T00:00:00", by decide⟩

/-- A concrete message from agent "A". -/
def exMsgA : ChatMessage := ⟨"A", "assistant", "hello", exTime, "id-A1"⟩

/-- A concrete message from agent "B". -/
def exMsgB : ChatMessage := ⟨"B", "assistant", "hi there", exTime, "id-B1"⟩

/-- Three concrete messages forming the history M1, M2, M3. -/
def exM1 : ChatMessage := ⟨"A", "assistant", "m1", exTime, "id-1"⟩

def exM2 : ChatMessage := ⟨"B", "assistant", "m2", exTime, "id-2"⟩

def exM3 : ChatMessage := ⟨"A", "user", "m3", exTime, "id-3"⟩

/-- A handler that always returns normally. -/
def okHandler : Handler := fun _ => .ok ()

/-- A handler that always raises. -/
def failHandler : Handler := fun _ => .error (.handlerExc "boom")

/-- A payload missing the required `message_id` field. -/
def exNoIdPayload : Payload :=
  [("agent_name", "A"), ("role", "assistant"), ("content", "hello"),
   ("timestamp", "2024-01-01T00:00:00")]

/-! ### Helper lemmas -/

/-- Parsing the canonical rendering of a datetime recovers it. -/
theorem fromisoformat_isoformat (d : Datetime) :
    fromisoformat d.isoformat = .ok d := by
  cases d with
  | mk s h => simp [fromisoformat, Datetime.isoformat, h]

/-- Decoding the canonical wire form of a message recovers the message. -/
theorem decodeMessage_encodeMessage (m : ChatMessage) :
    decodeMessage (encodeMessage m) = .ok m := by
  cases m with
  | mk an role content t mid =>
    simp [decodeMessage, encodeMessage, getItem, fromisoformat_isoformat,
      Except.bind, bind, pure, Except.pure]

/-- Decoding an encoded history recovers it entrywise. -/
theorem decodeAll_map_encode (l : List ChatMessage) :
    decodeAll (l.map encodeMessage) = .ok l := by
  induction l with
  | nil => rfl
  | cons m ms ih =>
    simp [decodeAll, decodeMessage_encodeMessage, ih, Except.bind, bind, pure,
      Except.pure]

/-- The routing loop never records an invocation for the sender's name. -/
theorem runHandlers_not_sender (hs : List (String × Handler)) (m : ChatMessage) :
    ∀ x ∈ (runHandlers hs m).1, x.1 ≠ m.agent_name := by
  induction hs with
  | nil => simp [runHandlers]
  | cons p rest ih =>
    obtain ⟨a, h⟩ := p
    by_cases hc : a = m.agent_name
    · simpa [runHandlers, hc] using ih
    · cases hm : h m with
      | ok u => simpa [runHandlers, hc, hm] using ih
      | error e => simp [runHandlers, hc, hm]

/-- When every handler registered for another agent returns normally, the
routing loop invokes exactly those handlers, once each, in registration
order, with the decoded message, and raises nothing. -/
theorem runHandlers_all_ok (hs : List (String × Handler)) (m : ChatMessage)
    (hok : ∀ p ∈ hs, p.1 ≠ m.agent_name → p.2 m = .ok ()) :
    runHandlers hs m =
      ((hs.filter (fun p => p.1 ≠ m.agent_name)).map (fun p => (p.1, m)), none) := by
  induction hs with
  | nil => simp [runHandlers]
  | cons p rest ih =>
    obtain ⟨a, h⟩ := p
    have hrest : ∀ q ∈ rest, q.1 ≠ m.agent_name → q.2 m = .ok () := by
      intro q hq; exact hok q (List.mem_cons_of_mem _ hq)
    by_cases hc : a = m.agent_name
    · simp [runHandlers, hc, ih hrest]
    · have hthis : h m = .ok () := hok (a, h) (List.mem_cons_self _ _) hc
      simp [runHandlers, hc, hthis, ih hrest]

/-- When the handlers before a failing one all return normally, the routing
loop invokes them, then the failing handler, raises its exception, and never
reaches the handlers after it. -/
theorem runHandlers_fail (pre post : List (String × Handler)) (a : String)
    (h : Handler) (m : ChatMessage) (e : PyError)
    (hpre : ∀ p ∈ pre, p.1 ≠ m.agent_name → p.2 m = .ok ())
    (ha : a ≠ m.agent_name) (hfail : h m = .error e) :
    runHandlers (pre ++ (a, h) :: post) m =
      ((pre.filter (fun p => p.1 ≠ m.agent_name)).map (fun p => (p.1, m))
        ++ [(a, m)], some e) := by
  induction pre with
  | nil => simp [runHandlers, ha, hfail]
  | cons q rest ih =>
    obtain ⟨b, g⟩ := q
    have hrest : ∀ p ∈ rest, p.1 ≠ m.agent_name → p.2 m = .ok () := by
      intro p hp; exact hpre p (List.mem_cons_of_mem _ hp)
    by_cases hc : b = m.agent_name
    · simp [runHandlers, hc, ih hrest]
    · have hthis : g m = .ok () := hpre (b, g) (List.mem_cons_self _ _) hc
      simp [runHandlers, hc, hthis, ih hrest]

/-- Arithmetic for the Python slice `l[-limit:]` with positive `limit`. -/
theorem toNat_len_sub (n : Nat) (l : Int) (h : 0 < l) :
    ((n : Int) + (-l)).toNat = n - l.toNat := by omega

/-- Python slice `l[-limit:]` for positive `limit` keeps the last `limit`
elements (all of them when `limit` exceeds the length). -/
theorem pySliceFrom_neg {α : Type} (l : List α) (limit : Int) (h : 0 < limit) :
    pySliceFrom l (-limit) = l.drop (l.length - limit.toNat) := by
  have hneg : -limit < 0 := by omega
  simp [pySliceFrom, hneg, toNat_len_sub _ _ h]

/-! ### The claims -/

/-- C1, as stated, is false: dispatch does not always invoke every
registered handler whose agent name differs from the sender's.  Here "C" is
registered, `"C" ≠ "A"`, agent "A"'s message is decoded, yet the trace is
only `[("B", exMsgA)]`: the earlier handler "B" raised and "C" was never
invoked. -/
theorem C1_counterexample :
    decodeMessage (encodeMessage exMsgA) = Except.ok exMsgA ∧
    "C" ≠ exMsgA.agent_name ∧
    handle_incoming_message [("B", failHandler), ("C", okHandler)]
        (encodeMessage exMsgA)
      = .ok ([("B", exMsgA)], some (.handlerExc "boom")) := by
  exact ⟨by decide, by decide, by decide⟩

/-- C1 (amended): for every decoded inbound message and every handler table
whose handlers for other agents all return normally on it, dispatch invokes
exactly the registered handlers whose agent name differs from the message's
`agent_name`, each exactly once, in registration order, with the decoded
message; the handler registered under the sender's own agent name is never
invoked. -/
theorem C1_dispatch_routes (hs : List (String × Handler)) (ev : Payload)
    (m : ChatMessage) (hdec : decodeMessage ev = .ok m)
    (hok : ∀ p ∈ hs, p.1 ≠ m.agent_name → p.2 m = .ok ()) :
    handle_incoming_message hs ev =
      .ok ((hs.filter (fun p => p.1 ≠ m.agent_name)).map (fun p => (p.1, m)),
        none) := by
  simp [handle_incoming_message, hdec, runHandlers_all_ok hs m hok]

/-- Witness for C1: "A" and "B" subscribed, "B" publishes; exactly "A"'s
handler is invoked, once, with the decoded message from "B". -/
theorem C1_witness :
    handle_incoming_message [("A", okHandler), ("B", okHandler)]
        (encodeMessage exMsgB)
      = .ok ([("A", exMsgB)], none) := by
  rw [C1_dispatch_routes [("A", okHandler), ("B", okHandler)]
    (encodeMessage exMsgB) exMsgB (by decide) (by decide)]
  decide

/-- C2, as stated, is false for `limit = 0`: the most recent 0 messages
would be `[]`, but `history_data[-0:]` is the whole list, so load returns
every stored message. -/
theorem C2_counterexample :
    get_chat_history true true (.ok (some ([exM1].map encodeMessage))) 0
      = .ok ([exM1], none) ∧
    get_chat_history true true (.ok (some ([exM1].map encodeMessage))) 0
      ≠ .ok ([], none) := by
  exact ⟨by decide, by decide⟩

/-- C2 (amended): for every persisted log and every positive limit,
`load(limit)` returns the most recent `limit` messages of the log in
original insertion order (all of them when the log is shorter than
`limit`). -/
theorem C2_load_last (msgs : List ChatMessage) (limit : Int) (h : 0 < limit) :
    get_chat_history true true (.ok (some (msgs.map encodeMessage))) limit
      = .ok (msgs.drop (msgs.length - limit.toNat), none) := by
  simp [get_chat_history, pySliceFrom_neg _ _ h, ← List.map_drop,
    decodeAll_map_encode]

/-- Witness for C2: after saving [M1, M2, M3], `load(limit = 2)` returns
`[M2, M3]` in that order. -/
theorem C2_witness :
    get_chat_history true true
        (.ok (some ([exM1, exM2, exM3].map encodeMessage))) 2
      = .ok ([exM2, exM3], none) := by
  rw [C2_load_last [exM1, exM2, exM3] 2 (by decide)]
  decide

/-- C3: save is a full replace of the persisted key, never an append or
union: saving `first` leaves the store holding exactly the encoding of
`first`, and a subsequent save of `second` leaves it holding exactly the
encoding of `second`, whatever was there before. -/
theorem C3_save_overwrites (s₀ : StoreState) (first second : List ChatMessage) :
    save_chat_history true true s₀ true first
        = .ok (some (first.map encodeMessage), none) ∧
    save_chat_history true true (some (first.map encodeMessage)) true second
        = .ok (some (second.map encodeMessage), none) :=
  ⟨rfl, rfl⟩

/-- C4: an inbound event whose payload fails to decode (missing required
field or unparsable timestamp) is dropped: no handler is invoked (empty
trace) and dispatch returns normally (`.ok`), the exception only logged. -/
theorem C4_malformed_dropped (hs : List (String × Handler)) (ev : Payload)
    (e : PyError) (hdec : decodeMessage ev = .error e) :
    handle_incoming_message hs ev = .ok ([], some e) := by
  simp [handle_incoming_message, hdec]

/-- Witness for C4: an event missing `message_id` is dropped with a
`KeyError` logged and no handler invoked. -/
theorem C4_witness :
    handle_incoming_message [("B", okHandler)] exNoIdPayload
      = .ok ([], some (.keyError "message_id")) :=
  C4_malformed_dropped [("B", okHandler)] exNoIdPayload
    (.keyError "message_id") (by decide)

/-- C5, as stated, is false: when the handler registered for "B" raises on
agent "A"'s message, the exception does NOT propagate out of dispatch — the
result is a normal `.ok` return (the `except` clause at chat.py lines 94-95
catches and logs it).  Only the second half of the claim holds: the handler
registered for "D" is never invoked. -/
theorem C5_counterexample :
    handle_incoming_message [("B", failHandler), ("D", okHandler)]
        (encodeMessage exMsgA)
      = .ok ([("B", exMsgA)], some (.handlerExc "boom")) := by
  decide

/-- C5 (amended): if a registered handler raises during dispatch, the
handlers registered after it are not invoked for that message, and the
exception is caught and logged inside dispatch — dispatch returns normally
instead of propagating it to its caller. -/
theorem C5_handler_failure_logged (pre post : List (String × Handler))
    (a : String) (h : Handler) (ev : Payload) (m : ChatMessage) (e : PyError)
    (hdec : decodeMessage ev = .ok m)
    (hpre : ∀ p ∈ pre, p.1 ≠ m.agent_name → p.2 m = .ok ())
    (ha : a ≠ m.agent_name) (hfail : h m = .error e) :
    handle_incoming_message (pre ++ (a, h) :: post) ev =
      .ok ((pre.filter (fun p => p.1 ≠ m.agent_name)).map (fun p => (p.1, m))
        ++ [(a, m)], some e) := by
  simp [handle_incoming_message, hdec,
    runHandlers_fail pre post a h m e hpre ha hfail]

/-- Witness for C5: "B"'s handler raises on "A"'s message; the trace stops
at "B", "D"'s handler never runs, and dispatch returns `.ok` with the
exception logged. -/
theorem C5_witness :
    handle_incoming_message
        [("C", okHandler), ("B", failHandler), ("D", okHandler)]
        (encodeMessage exMsgA)
      = .ok ([("C", exMsgA), ("B", exMsgA)], some (.handlerExc "boom")) := by
  have h := C5_handler_failure_logged [("C", okHandler)] [("D", okHandler)]
    "B" failHandler (encodeMessage exMsgA) exMsgA (.handlerExc "boom")
    (by decide) (by decide) (by decide) rfl
  simpa [exMsgA] using h

/-- C6, as stated, is false: when `save_state` fails, `save_chat_history`
returns normally (`.ok`) with the store unchanged and the error merely
logged — the `except` clause at chat.py lines 154-155 has no `raise`, so
nothing is surfaced to the caller. -/
theorem C6_counterexample :
    save_chat_history true true (some [encodeMessage exM1]) false [exM2, exM3]
      = .ok (some [encodeMessage exM1], some (.daprError "save_state")) := by
  decide

/-- C6 (amended): when the write to the state store fails during save, the
failure is swallowed: save catches the exception, logs it, returns normally
to the caller, and leaves the persisted value unchanged. -/
theorem C6_save_failure_swallowed (store : StoreState)
    (msgs : List ChatMessage) :
    save_chat_history true true store false msgs
      = .ok (store, some (.daprError "save_state")) :=
  rfl

/-- C7: serializing a ChatMessage to the canonical five-field wire form and
deserializing it yields a message equal to the original (hence equal in all
five fields). -/
theorem C7_roundtrip (m : ChatMessage) :
    decodeMessage (encodeMessage m) = .ok m :=
  decodeMessage_encodeMessage m

/-- C8: `load(limit)` on a store with no persisted log returns the empty
sequence without raising, and a failing read from the state store also
yields the empty sequence (the error is logged, not surfaced). -/
theorem C8_load_degrades (limit : Int) (e : PyError) :
    get_chat_history true true (.ok none) limit = .ok ([], none) ∧
    get_chat_history true true (.error e) limit = .ok ([], some e) :=
  ⟨rfl, rfl⟩

/-- C9: connection and publish failures propagate.  A failing client
construction escapes `initialize`; a publish on a manager with no client
and a failing connect escapes before any `publish_event` call; a transport-
rejected publish escapes after exactly one `publish_event` call (no
retry). -/
theorem C9_failures_propagate (m : ChatMessage) :
    init_client false = .error (.daprError "DaprClient") ∧
    publish_message false false true m = ([], .error (.daprError "DaprClient")) ∧
    publish_message true true false m
      = ([encodeMessage m], .error (.daprError "publish_event")) :=
  ⟨rfl, rfl, rfl⟩

/-- C10: on a non-empty persisted log, `load(limit = 0)` returns the whole
log in insertion order — `history_data[-0:]` is the entire list, so the
result is every stored message, not zero messages. -/
theorem C10_limit_zero_full (msgs : List ChatMessage) (h : msgs ≠ []) :
    get_chat_history true true (.ok (some (msgs.map encodeMessage))) 0
      = .ok (msgs, none) := by
  have hs : pySliceFrom (msgs.map encodeMessage) (0 : Int)
      = msgs.map encodeMessage := by
    simp [pySliceFrom]
  simp [get_chat_history, hs, decodeAll_map_encode]

/-- Witness for C10: a one-message log with `limit = 0` loads as the whole
log. -/
theorem C10_witness :
    get_chat_history true true (.ok (some ([exM1].map encodeMessage))) 0
      = .ok ([exM1], none) :=
  C10_limit_zero_full [exM1] (by decide)

